import Mathlib

/-!
Verification development for the clicklocal-mailer repository.

The definitions below are a shallow embedding of `src/server.js` (the
campaign web server) and `src/sheets.js` (the recipient store).  Strings
are modelled as `List Char`; the JavaScript regular expressions that the
server uses are modelled by explicit scanners that follow the
backtracking behaviour of the concrete regex literals appearing in the
source.  Impure ingredients (wall clock, SMTP transport, sheet I/O,
uuid/timestamps) are passed in as explicit parameters or elided where
noted.
-/

namespace ClickLocal

set_option maxRecDepth 40000

/-- JS whitespace for the regex class backslash-s (ASCII portion; the
source only ever feeds it ASCII markup). -/
def jsWsChar (c : Char) : Bool :=
  c = (' ') || c = ('\t') || c = ('\n') || c = ('\r') || c.toNat = 11 || c.toNat = 12

/-- The apostrophe character (kept out of string literals). -/
def apos : Char := Char.ofNat 39

/-- Quote characters of the regex character class that matches a double
or single quote. -/
def isQuoteChar (c : Char) : Bool := c = ('"') || c = apos

/-- JS line terminators: the characters NOT matched by an un-flagged dot. -/
def isLineTerm (c : Char) : Bool :=
  c = ('\n') || c = ('\r') || c.toNat = 8232 || c.toNat = 8233

/-- Case-insensitive prefix test (models the `i` regex flag). -/
def ciPrefixOf : List Char → List Char → Bool
  | [], _ => true
  | _ :: _, [] => false
  | p :: ps, c :: cs => (p.toLower = c.toLower) && ciPrefixOf ps cs

/-- `String.prototype.includes` on character lists (case sensitive). -/
def containsSub (pat : List Char) : List Char → Bool
  | [] => pat.isEmpty
  | c :: rest => pat.isPrefixOf (c :: rest) || containsSub pat rest

/-- First case-sensitive occurrence of `pat`, replaced by `repl`
(models `String.prototype.replace` with a plain-string pattern; the
source never calls it with an empty pattern). -/
def replaceFirstSub (pat repl : List Char) : List Char → List Char
  | [] => []
  | c :: rest =>
    if pat.isPrefixOf (c :: rest) then repl ++ (c :: rest).drop pat.length
    else c :: replaceFirstSub pat repl rest

/-- Lazy-dot search: walk forward over non-line-terminator characters
until the case-insensitive pattern `pat` matches, returning the skipped
text, the actual matched chunk and the remainder.  This is the engine
behaviour of a lazy dot-star followed by a literal, without the `s`
flag. -/
def lazyDotSearch (pat : List Char) : List Char → Option (List Char × List Char × List Char)
  | [] => none
  | c :: rest =>
    if ciPrefixOf pat (c :: rest) then
      some ([], (c :: rest).take pat.length, (c :: rest).drop pat.length)
    else if isLineTerm c then none
    else
      match lazyDotSearch pat rest with
      | some (pre, chunk, rem) => some (c :: pre, chunk, rem)
      | none => none

/-- Lazy any-character search: like `lazyDotSearch` but crossing line
terminators - the engine behaviour of a lazy bracketed
whitespace-or-non-whitespace star followed by a literal, as the anchor
regex uses for the link text. -/
def lazyAnySearch (pat : List Char) : List Char → Option (List Char × List Char × List Char)
  | [] => none
  | c :: rest =>
    if ciPrefixOf pat (c :: rest) then
      some ([], (c :: rest).take pat.length, (c :: rest).drop pat.length)
    else
      match lazyAnySearch pat rest with
      | some (pre, chunk, rem) => some (c :: pre, chunk, rem)
      | none => none

/-- Uppercase hex digit of a value below 16. -/
def hexDigit (n : Nat) : Char :=
  (("0123456789ABCDEF").toList).getD n ('0')

/-- UTF-8 bytes of a unicode scalar value. -/
def utf8Bytes (n : Nat) : List Nat :=
  if n < 128 then [n]
  else if n < 2048 then [192 + n / 64, 128 + n % 64]
  else if n < 65536 then [224 + n / 4096, 128 + (n / 64) % 64, 128 + n % 64]
  else [240 + n / 262144, 128 + (n / 4096) % 64, 128 + (n / 64) % 64, 128 + n % 64]

/-- Percent-encoding of one byte, uppercase hex as produced by
`encodeURIComponent`. -/
def pctByte (b : Nat) : List Char := [('%'), hexDigit (b / 16), hexDigit (b % 16)]

/-- Characters `encodeURIComponent` leaves as-is. -/
def uriUnreserved (c : Char) : Bool :=
  c.isAlpha || c.isDigit || c = ('-') || c = ('_') || c = ('.') || c = ('!') ||
  c = ('~') || c = ('*') || c = apos || c = ('(') || c = (')')

/-- Model of `encodeURIComponent`. -/
def encodeURIComponent (s : List Char) : List Char :=
  s.flatMap fun c => if uriUnreserved c then [c] else (utf8Bytes c.toNat).flatMap pctByte

/-- Base64 alphabet. -/
def b64Alphabet : List Char :=
  ("ABCDEFGHIJKLMNOPQRSTUVWXYZabcdefghijklmnopqrstuvwxyz0123456789+/").toList

/-- One base64 output character. -/
def b64Char (n : Nat) : Char := b64Alphabet.getD n ('A')

/-- Base64 of a byte list with the padding already stripped, matching
`Buffer.from(s).toString(base64).replace` that deletes every equals
sign. -/
def b64NoPad : List Nat → List Char
  | [] => []
  | [b1] => [b64Char (b1 / 4), b64Char (b1 % 4 * 16)]
  | [b1, b2] => [b64Char (b1 / 4), b64Char (b1 % 4 * 16 + b2 / 16), b64Char (b2 % 16 * 4)]
  | b1 :: b2 :: b3 :: rest =>
    b64Char (b1 / 4) :: b64Char (b1 % 4 * 16 + b2 / 16) ::
    b64Char (b2 % 16 * 4 + b3 / 64) :: b64Char (b3 % 64) :: b64NoPad rest

/-- `encodeSheetName` from server.js: base64 of the sheet name with the
padding equals signs removed. -/
def encodeSheetName (s : List Char) : List Char :=
  b64NoPad (s.flatMap fun c => utf8Bytes c.toNat)

/-- `isQuietHours` from server.js, as a function of the wall-clock hour
returned by `Date.prototype.getHours`: quiet from 21:00 through 08:00,
wrapping midnight. -/
def isQuietHours (hour : Nat) : Bool :=
  decide (hour ≥ 21) || decide (hour < 8)

/-- Wall-clock reading (hour, minute, second, millisecond) used by the
quiet-hours helpers in server.js. -/
structure Clock where
  hour : Nat
  minute : Nat
  sec : Nat
  ms : Nat

/-- `getMsUntilQuietHoursEnd` from server.js: milliseconds until the next
08:00 (today when the hour is before 8, otherwise tomorrow). -/
def getMsUntilQuietHoursEnd (c : Clock) : Nat :=
  let msOfDay := ((c.hour * 60 + c.minute) * 60 + c.sec) * 1000 + c.ms
  if c.hour ≥ 8 then 32 * 3600 * 1000 - msOfDay else 8 * 3600 * 1000 - msOfDay

/-- `formatTimeRemaining` from server.js. -/
def formatTimeRemaining (ms : Nat) : String :=
  Nat.repr (ms / (1000 * 60 * 60)) ++ "h " ++ Nat.repr (ms % (1000 * 60 * 60) / (1000 * 60)) ++ "m"

/-! ### Link click-tracking rewrite (`wrapLinksWithTracking`)

The server rewrites every anchor with a global case-insensitive regex
matching an opening a-tag that holds a quoted href, the link text, and
the closing a-tag.  The scanner below models the engine behaviour of
that regex literal: mandatory whitespace after the tag name, a greedy
greater-than-free attribute run that backtracks to the rightmost viable
href, a quoted URL free of quote characters, the closing bracket, then
a lazy run up to the first closing a-tag.
-/

/-- The fixed marker of the tracking endpoint used by the skip check. -/
def clickMarker : List Char := ("clicklocal.me/api/click").toList

/-- The href attribute name with its equals sign, lowercase. -/
def hrefEq : List Char := ("href=").toList

/-- Closing a-tag literal. -/
def closeATag : List Char := ("</a>").toList

/-- All decompositions of the attribute region into a greater-than-free
prefix followed by a suffix starting with the (case-insensitive) href
attribute: the candidate positions the backtracking can choose for the
captured URL, in left-to-right order. -/
def hrefCands : List Char → List Char → List (List Char × List Char)
  | _, [] => []
  | pre, c :: ts =>
    (if ciPrefixOf hrefEq (c :: ts) then [(pre, c :: ts)] else []) ++
    (if c = ('>') then [] else hrefCands (pre ++ [c]) ts)

/-- Pieces of a successful anchor-regex match, before reassembly. -/
structure CandParts where
  pre : List Char
  hrefChunk : List Char
  q1 : Char
  url : List Char
  q2 : Char
  hGap : List Char
  linkText : List Char
  closeChunk : List Char
  remaining : List Char

/-- Try to complete the anchor match for one candidate href position:
opening quote, non-empty quote-free URL, closing quote, remaining
attribute text up to the closing bracket, then the lazy search for the
closing a-tag. -/
def tryCand (pre suf : List Char) : Option CandParts :=
  let hrefChunk := suf.take 5
  match suf.drop 5 with
  | [] => none
  | q1 :: urlRest =>
    if isQuoteChar q1 then
      let url := urlRest.takeWhile fun c => !(isQuoteChar c)
      if url.isEmpty then none
      else
        match urlRest.drop url.length with
        | [] => none
        | q2 :: afterQ2 =>
          let hGap := afterQ2.takeWhile fun c => c != ('>')
          match afterQ2.drop hGap.length with
          | [] => none
          | _ :: afterTag =>
            match lazyAnySearch closeATag afterTag with
            | none => none
            | some (text, chunk, rem) =>
              some ⟨pre, hrefChunk, q1, url, q2, hGap, text, chunk, rem⟩
    else none

/-- One anchor match at the head of the input.  The decomposition facts
used for termination and for the skip-identity argument are carried in
the structure; the guard that introduces them always succeeds for a
match the scanner builds. -/
structure AnchorMatch (s : List Char) where
  matched : List Char
  attrs : List Char
  urlStr : List Char
  linkText : List Char
  remaining : List Char
  split_eq : s = matched ++ remaining
  rem_lt : remaining.length < s.length

/-- Attempt the anchor regex anchored at the head of `s`. -/
def parseAnchor : (s : List Char) → Option (AnchorMatch s)
  | c0 :: c1 :: rest =>
    if c0 = ('<') && c1.toLower = ('a') then
      let ws := rest.takeWhile jsWsChar
      if ws.isEmpty then none
      else
        let afterWs := rest.drop ws.length
        match ((hrefCands [] afterWs).reverse).findSome? (fun pc => tryCand pc.1 pc.2) with
        | none => none
        | some p =>
          let attrs := p.pre ++ p.hrefChunk ++ p.q1 :: p.url ++ p.q2 :: p.hGap
          let matched := c0 :: c1 :: (ws ++ attrs ++ ('>') :: (p.linkText ++ p.closeChunk))
          if h : c0 :: c1 :: rest = matched ++ p.remaining ∧
                 p.remaining.length < (c0 :: c1 :: rest).length then
            some ⟨matched, attrs, p.url, p.linkText, p.remaining, h.1, h.2⟩
          else none
    else none
  | [] => none
  | [_] => none

/-- Split at the first case-sensitive occurrence of `pat` (the source
never uses an empty pattern). -/
def splitFirst (pat : List Char) : List Char → Option (List Char × List Char)
  | [] => none
  | c :: rest =>
    if pat.isPrefixOf (c :: rest) then some ([], (c :: rest).drop pat.length)
    else
      match splitFirst pat rest with
      | some (pre, post) => some (c :: pre, post)
      | none => none

/-- Approximation of the hostname accessor of the URL constructor (used
only when an anchor has no visible text): text after the scheme
separator up to a path, query or fragment delimiter, userinfo and port
stripped, lowercased.  `none` models the constructor throwing. -/
def urlHostname (u : List Char) : Option (List Char) :=
  match splitFirst (("://").toList) u with
  | none => none
  | some (scheme, rest) =>
    if scheme.isEmpty then none
    else
      let auth := rest.takeWhile fun c => !(c = ('/') || c = ('?') || c = ('#'))
      let host := ((auth.reverse.takeWhile fun c => c != ('@')).reverse).takeWhile fun c => c != (':')
      if host.isEmpty then none else some (host.map Char.toLower)

/-- Strip markup for the link-name derivation: the global regex that
deletes every bracketed run.  Structural recursion on a fuel bound so
that the kernel can evaluate concrete inputs; every step consumes at
least one character, so `stripTags` below always supplies enough
fuel and the fuel-exhausted branch never fires. -/
def stripTagsF : Nat → List Char → List Char
  | _, [] => []
  | 0, s => s
  | fuel + 1, c :: rest =>
    if c = ('<') && rest.any (fun d => d = ('>')) then
      stripTagsF fuel (rest.drop (rest.findIdx (fun d => d = ('>')) + 1))
    else c :: stripTagsF fuel rest

/-- Markup stripping at adequate fuel. -/
def stripTags (s : List Char) : List Char := stripTagsF s.length s

/-- JS trim whitespace (ASCII portion plus no-break space and BOM). -/
def jsTrimWs (c : Char) : Bool := jsWsChar c || c.toNat = 160 || c.toNat = 65279

/-- `String.prototype.trim`. -/
def jsTrim (s : List Char) : List Char :=
  ((s.dropWhile jsTrimWs).reverse.dropWhile jsTrimWs).reverse

/-- The tracking redirect URL substituted for an href: endpoint, encoded
recipient email, encoded sheet name, encoded original URL and a short
link name derived from the visible text (or the URL host, or a fixed
fallback). -/
def trackingUrl (email sheet url linkText0 : List Char) : List Char :=
  let cleanText := jsTrim (stripTags linkText0)
  let name0 := cleanText.take 30
  let linkName :=
    if name0.isEmpty then
      match urlHostname url with
      | some h => replaceFirstSub (("www.").toList) [] h
      | none => ("link").toList
    else name0
  ("https://www.clicklocal.me/api/click?e=").toList ++ encodeURIComponent email ++
  ("&s=").toList ++ encodeSheetName sheet ++
  ("&url=").toList ++ encodeURIComponent url ++
  ("&link=").toList ++ encodeURIComponent linkName

/-- Length of a match of the case-sensitive quoted-href regex at the
head of the list, if any. -/
def hrefAttrMatchLen (s : List Char) : Option Nat :=
  if hrefEq.isPrefixOf s then
    match s.drop 5 with
    | [] => none
    | q1 :: r =>
      if isQuoteChar q1 then
        let u := r.takeWhile fun c => !(isQuoteChar c)
        if u.isEmpty then none
        else if u.length < r.length then some (7 + u.length) else none
      else none
  else none

/-- `attrs.replace` with the quoted-href regex: rewrite the first match
to a double-quoted tracking URL, leave everything else alone. -/
def replaceHrefAttr (t : List Char) : List Char → List Char
  | [] => []
  | c :: rest =>
    match hrefAttrMatchLen (c :: rest) with
    | some len => ("href=").toList ++ ('"') :: t ++ ('"') :: (c :: rest).drop len
    | none => c :: replaceHrefAttr t rest

/-- The replacement the rewrite callback returns for one matched anchor:
an anchor already pointing at the tracking endpoint is returned
unchanged, any other anchor gets its first quoted href swapped for the
tracking URL. -/
def anchorRepl (email sheet : List Char) {s : List Char} (m : AnchorMatch s) : List Char :=
  if containsSub clickMarker m.urlStr then m.matched
  else
    ('<') :: ('a') :: (' ') :: replaceHrefAttr (trackingUrl email sheet m.urlStr m.linkText) m.attrs ++
    ('>') :: m.linkText ++ ("</a>").toList

/-- The global replace of `wrapLinksWithTracking`: left-to-right scan,
each match replaced, matching resumes after the match.  Structural on a
fuel bound; each step consumes at least one character (`rem_lt`), so
the fuel-exhausted branch never fires at the fuel `wrapGo` supplies. -/
def wrapGoF (email sheet : List Char) : Nat → List Char → List Char
  | _, [] => []
  | 0, s => s
  | fuel + 1, c :: rest =>
    match parseAnchor (c :: rest) with
    | some m => anchorRepl email sheet m ++ wrapGoF email sheet fuel m.remaining
    | none => c :: wrapGoF email sheet fuel rest

/-- The anchor-rewriting scan at adequate fuel. -/
def wrapGo (email sheet s : List Char) : List Char := wrapGoF email sheet s.length s

/-- `wrapLinksWithTracking` from server.js, on strings. -/
def wrapLinksWithTracking (html email sheetName : String) : String :=
  String.mk (wrapGo email.toList sheetName.toList html.toList)

/-- Every anchor the rewrite matches in `s` already carries the tracking
endpoint marker in its captured URL (fuelled scan over the same match
structure as the rewrite). -/
def allSkippedF : Nat → List Char → Bool
  | _, [] => true
  | 0, _ => true
  | fuel + 1, c :: rest =>
    match parseAnchor (c :: rest) with
    | some m => containsSub clickMarker m.urlStr && allSkippedF fuel m.remaining
    | none => allSkippedF fuel rest

/-- The all-skipped check at adequate fuel. -/
def allAnchorsSkipped (s : List Char) : Bool := allSkippedF s.length s

/-! ### Text-template rendering

For a plain-text template the send and preview endpoints first extract
an allow-list of inline tags (img with attributes, a-elements, bare b
and i elements) with a global case-insensitive regex, substituting
numbered placeholders; the preview endpoint then escapes the remaining
brackets, both convert newlines to break tags, and the tags are spliced
back by replacing each placeholder (first occurrence).  The resume
endpoint renders text templates with a bare newline conversion.
-/

/-- A preserved-tag grab at the head of the input: the matched tag text
and the remainder.  The length fact is the termination guard; it always
holds for a real match. -/
structure TagGrab (s : List Char) where
  tag : List Char
  remaining : List Char
  rem_lt : remaining.length < s.length

/-- The img alternative: tag name, attribute run free of closing
brackets, closing bracket. -/
def imgBranch (t : List Char) : Option (List Char × List Char) :=
  if ciPrefixOf (("img").toList) t then
    let body := (t.drop 3).takeWhile fun c => c != ('>')
    match (t.drop 3).drop body.length with
    | _ :: rest2 => some (('<') :: (t.take 3 ++ body ++ [('>')]), rest2)
    | [] => none
  else none

/-- The a alternative: tag name, attribute run, closing bracket, lazy
dot run (which cannot cross a line terminator) up to the closing
a-tag. -/
def aBranch (t : List Char) : Option (List Char × List Char) :=
  match t with
  | [] => none
  | a :: t2 =>
    if a.toLower = ('a') then
      let gap := t2.takeWhile fun c => c != ('>')
      match t2.drop gap.length with
      | _ :: t3 =>
        match lazyDotSearch (("</a>").toList) t3 with
        | some (content, chunk, rem) =>
          some (('<') :: a :: (gap ++ ('>') :: (content ++ chunk)), rem)
        | none => none
      | [] => none
    else none

/-- The bare-element alternative for b and i: tag letter immediately
followed by the closing bracket, lazy dot run, closing tag. -/
def bareBranch (letter : Char) (closing : List Char) (t : List Char) : Option (List Char × List Char) :=
  match t with
  | b :: gt :: t3 =>
    if b.toLower = letter && gt = ('>') then
      match lazyDotSearch closing t3 with
      | some (content, chunk, rem) =>
        some (('<') :: b :: gt :: (content ++ chunk), rem)
      | none => none
    else none
  | _ => none

/-- Attempt the preserved-tag regex at the head of `s`, alternatives in
source order: img, a, b, i. -/
def tryPreserveTag : (s : List Char) → Option (TagGrab s)
  | ('<') :: t =>
    match imgBranch t |>.orElse (fun _ => aBranch t)
          |>.orElse (fun _ => bareBranch ('b') (("</b>").toList) t)
          |>.orElse (fun _ => bareBranch ('i') (("</i>").toList) t) with
    | some (tag, rem) =>
      if h : rem.length < (('<') :: t).length then some ⟨tag, rem, h⟩ else none
    | none => none
  | _ => none

/-- The numbered placeholder the extraction substitutes for a tag. -/
def tagPlaceholder (k : Nat) : List Char :=
  ("\x7b\x7bTAG_").toList ++ (Nat.repr k).toList ++ ("\x7d\x7d").toList

/-- The global preserved-tag replace: returns the text with placeholders
substituted and the extracted tags in match order, numbering from `k`.
Structural on a fuel bound; each step consumes at least one character
(`rem_lt`), so the fuel-exhausted branch never fires at the fuel
`extractTags` supplies. -/
def extractTagsF : Nat → Nat → List Char → List Char × List (List Char)
  | _, _, [] => ([], [])
  | 0, _, s => (s, [])
  | fuel + 1, k, c :: rest =>
    match tryPreserveTag (c :: rest) with
    | some g =>
      let r := extractTagsF fuel (k + 1) g.remaining
      (tagPlaceholder k ++ r.1, g.tag :: r.2)
    | none =>
      let r := extractTagsF fuel k rest
      (c :: r.1, r.2)

/-- The preserved-tag extraction at adequate fuel. -/
def extractTags (k : Nat) (s : List Char) : List Char × List (List Char) :=
  extractTagsF s.length k s

/-- Newline-to-break conversion (the regex matches only the line feed). -/
def newlineToBr : List Char → List Char
  | [] => []
  | c :: rest => (if c = ('\n') then ("<br>").toList else [c]) ++ newlineToBr rest

/-- Escape every opening bracket (first replace of the preview path). -/
def escLt : List Char → List Char
  | [] => []
  | c :: rest => (if c = ('<') then ("&lt;").toList else [c]) ++ escLt rest

/-- Escape every closing bracket (second replace of the preview path). -/
def escGt : List Char → List Char
  | [] => []
  | c :: rest => (if c = ('>') then ("&gt;").toList else [c]) ++ escGt rest

/-- Splice the extracted tags back, replacing the first occurrence of
each numbered placeholder in order. -/
def restoreTags : List (List Char) → Nat → List Char → List Char
  | [], _, s => s
  | t :: ts, k, s => restoreTags ts (k + 1) (replaceFirstSub (tagPlaceholder k) t s)

/-- The sans-serif wrapper element both text renderers emit. -/
def divOpen : List Char := ("<div style=\"font-family: sans-serif;\">").toList

/-- Closing wrapper element. -/
def divClose : List Char := ("</div>").toList

/-- Text-template body rendering of the send endpoint: extract the
allow-listed tags, convert newlines, splice the tags back.  Note there
is no escaping step here. -/
def renderTextSend (content : List Char) : List Char :=
  let r := extractTags 0 content
  divOpen ++ restoreTags r.2 0 (newlineToBr r.1) ++ divClose

/-- Text-template body rendering of the preview endpoint: same as the
send path but with bracket escaping between extraction and newline
conversion. -/
def renderTextPreview (content : List Char) : List Char :=
  let r := extractTags 0 content
  divOpen ++ restoreTags r.2 0 (newlineToBr (escGt (escLt r.1))) ++ divClose

/-! ### Data model and the full message pipeline of the send endpoint
-/

/-- A stored template (timestamps elided). -/
structure Template where
  id : String
  name : String
  subject : String
  contentType : String
  content : String
  optOutLang : String
deriving DecidableEq

/-- Body rendering of the campaign send endpoint. -/
def renderBodySend (t : Template) : List Char :=
  if t.contentType = "text" then renderTextSend t.content.toList
  else t.content.toList

/-- Body rendering of the campaign resume endpoint: a bare newline
conversion for text templates. -/
def renderBodyResume (t : Template) : List Char :=
  if t.contentType = "text" then divOpen ++ newlineToBr t.content.toList ++ divClose
  else t.content.toList

/-- German opt-out footer template literal of the send endpoint. -/
def optOutFooterDe : String :=
  "\n<div style=\"margin-top:40px;padding-top:15px;border-top:1px solid #e5e7eb;font-size:11px;color:#9ca3af;text-align:center;\">\n  <p style=\"margin:0;\">\n    Falls Sie diese E-Mails nicht mehr erhalten möchten, <a href=\"https://www.clicklocal.me/email?e=\x7b\x7bEMAIL\x7d\x7d&s=\x7b\x7bSHEET\x7d\x7d&lang=de\" style=\"color:#9ca3af;\">klicken Sie hier</a>.\n  </p>\n</div>"

/-- English opt-out footer template literal of the send endpoint. -/
def optOutFooterEn : String :=
  "\n<div style=\"margin-top:40px;padding-top:15px;border-top:1px solid #e5e7eb;font-size:11px;color:#9ca3af;text-align:center;\">\n  <p style=\"margin:0;\">\n    If you no longer wish to receive these emails, <a href=\"https://www.clicklocal.me/email?e=\x7b\x7bEMAIL\x7d\x7d&s=\x7b\x7bSHEET\x7d\x7d&lang=en\" style=\"color:#9ca3af;\">click here</a>.\n  </p>\n</div>"

/-- The footer with the email and sheet placeholders substituted (first
occurrence each, as the plain-string replaces do). -/
def substFooter (footer : String) (email sheet : List Char) : List Char :=
  replaceFirstSub (("\x7b\x7bSHEET\x7d\x7d").toList) (encodeSheetName sheet)
    (replaceFirstSub (("\x7b\x7bEMAIL\x7d\x7d").toList) (encodeURIComponent email) footer.toList)

/-- The opt-out footer appended for a template, empty unless the
template language selects one of the two footers. -/
def footerPart (lang : String) (email sheet : List Char) : List Char :=
  if lang = "de" then substFooter optOutFooterDe email sheet
  else if lang = "en" then substFooter optOutFooterEn email sheet
  else []

/-- The open-tracking pixel appended last. -/
def trackingPixel (email sheet : List Char) : List Char :=
  ("<img src=\"https://www.clicklocal.me/api/track?e=").toList ++ encodeURIComponent email ++
  ("&s=").toList ++ encodeSheetName sheet ++
  ("\" width=\"1\" height=\"1\" style=\"display:none;width:1px;height:1px;\" alt=\"\">").toList

/-- The full per-recipient message construction of the send endpoint:
body, then opt-out footer, then the link-tracking rewrite, then the
open-tracking pixel. -/
def renderMessageSend (t : Template) (email sheet : List Char) : List Char :=
  let body := renderBodySend t
  let withFooter := body ++ footerPart t.optOutLang email sheet
  wrapGo email sheet withFooter ++ trackingPixel email sheet

/-! ### Recipient store, campaign state, send loop and the two endpoints

The wall clock, SMTP transport, sheet reads and uuid/timestamp
generation are impure; they enter the model as explicit parameters (a
`Clock`, a connectivity flag, the sheet contents or a read error, a
fresh campaign id, and a per-recipient transport outcome oracle).  The
server sends its HTTP response before the asynchronous loop runs; the
model returns the response together with the effects of the whole
request (transport calls made, log entries appended, the campaign
state left on disk by this request).
-/

/-- An entry of a stored email list; `unsubscribed` models the JS
truthiness of the field the unsubscribe endpoint sets. -/
structure ListEntry where
  email : String
  unsubscribed : Bool
deriving DecidableEq

/-- A stored email list (timestamps elided). -/
structure EmailList where
  id : String
  name : String
  sheetName : Option String
  emails : List ListEntry
deriving DecidableEq

/-- A row of the recipient sheet as `getRowsFromSheet` shapes it. -/
structure SheetRow where
  rowIndex : Nat
  email : String
  sendStatus : String
  sentAt : String
  unsubscribed : String
deriving DecidableEq

/-- `getRowsFromSheet` from sheets.js: skip the header row, default the
four columns to the empty string, row index counted from 2. -/
def getRowsFromSheet (values : List (List String)) : List SheetRow :=
  ((values.drop 1).enum).map fun p =>
    ⟨p.1 + 2, p.2.getD 0 "", p.2.getD 1 "", p.2.getD 2 "", p.2.getD 3 ""⟩

/-- The pending filter of `getUnsentFromSheet`: non-empty email, empty
status, empty sent timestamp, empty unsubscribed column. -/
def sheetRowPending (r : SheetRow) : Bool :=
  !r.email.isEmpty && r.sendStatus.isEmpty && r.sentAt.isEmpty && r.unsubscribed.isEmpty

/-- `getUnsentFromSheet` from sheets.js, over the rows read from the
store. -/
def getUnsentFromSheet (rows : List SheetRow) : List SheetRow :=
  rows.filter sheetRowPending

/-- The persisted campaign resumability record (timestamps elided;
`currentIndex` is absent until the loop first sets it). -/
structure CampaignState where
  campaignId : String
  templateId : String
  listId : Option String
  sheetName : Option String
  optOutLang : String
  totalRecipients : Nat
  sentEmails : List String
  currentIndex : Option Nat
  status : String
deriving DecidableEq

/-- One appended send-log record (uuid and timestamp elided). -/
structure LogEntry where
  campaignId : String
  templateName : String
  email : String
  subject : String
  status : String
  error : Option String
  messageId : Option String
deriving DecidableEq

/-- Outcome of one transport call: the promise resolves with success
and a message id, resolves with a failure and an error text, or
rejects. -/
inductive SendOutcome where
  | ok (messageId : String)
  | err (msg : String)
  | threw (msg : String)
deriving DecidableEq

/-- Whether the outcome is a reported success. -/
def SendOutcome.isOk : SendOutcome → Bool
  | .ok _ => true
  | _ => false

/-- The log status the loop records for an outcome. -/
def statusOf : SendOutcome → String
  | .ok _ => "sent"
  | .err _ => "failed"
  | .threw _ => "failed"

/-- The error text the loop records for an outcome. -/
def errorOf : SendOutcome → Option String
  | .ok _ => none
  | .err e => some e
  | .threw e => some e

/-- The log entry pushed for one recipient. -/
def logFor (cid : String) (t : Template) (email : String) : SendOutcome → LogEntry
  | .ok mid => ⟨cid, t.name, email, t.subject, "sent", none, some mid⟩
  | .err e => ⟨cid, t.name, email, t.subject, "failed", some e, none⟩
  | .threw e => ⟨cid, t.name, email, t.subject, "failed", some e, none⟩

/-- The sequential send loop: one transport call and one appended log
entry per recipient, in order; a failure only affects its own entry.
The quiet-hours and rate-limit suspensions inside the loop are timed
waits that do not change which calls and entries occur, so they are
elided here. -/
def sendLoop (cid : String) (t : Template) (outcome : Nat → SendOutcome) :
    List String → Nat → List (String × LogEntry)
  | [], _ => []
  | e :: es, i => (e, logFor cid t e (outcome i)) :: sendLoop cid t outcome es (i + 1)

/-- Sent/failed totals of the completion event: counted from all log
entries carrying this campaign id. -/
structure CampaignSummary where
  total : Nat
  sent : Nat
  failed : Nat
deriving DecidableEq

/-- The summary the complete event reports. -/
def completeSummary (cid : String) (allLogs : List LogEntry) (total : Nat) : CampaignSummary :=
  ⟨total,
   (allLogs.filter fun l => l.campaignId == cid && l.status == "sent").length,
   (allLogs.filter fun l => l.campaignId == cid && l.status == "failed").length⟩

/-- Responses of the two campaign endpoints. -/
inductive ApiResp where
  | errorResp (code : Nat) (msg : String)
  | sendAccepted (campaignId : String) (totalRecipients skippedUnsubscribed : Nat)
  | resumeFail (msg : String)
  | resumeOk (msg : String)
deriving DecidableEq

/-- Observable effects of one campaign request: recipients handed to
the transport, log entries appended, and the campaign state this
request left persisted (`none` when it never wrote one). -/
structure Effects where
  transportTargets : List String
  appendedLogs : List LogEntry
  savedState : Option CampaignState
deriving DecidableEq

/-- No effects at all. -/
def noEffects : Effects := ⟨[], [], none⟩

/-- The request body of the send endpoint. -/
structure SendReq where
  templateId : Option String
  listId : Option String
  testEmail : Option String
deriving DecidableEq

/-- JS truthiness of an optional string field. -/
def jsTruthyOpt : Option String → Bool
  | none => false
  | some s => !s.isEmpty

/-- `templates.find` on a strict id comparison against a possibly
absent request field. -/
def findTemplate (ts : List Template) (tid : Option String) : Option Template :=
  ts.find? fun t => tid == some t.id

/-- `lists.find` on a strict id comparison. -/
def findList (ls : List EmailList) (lid : Option String) : Option EmailList :=
  ls.find? fun l => lid == some l.id

/-- The recipient selection of the send endpoint for a stored list:
entries whose unsubscribed field is falsy. -/
def startRecipients (l : EmailList) : List ListEntry :=
  l.emails.filter fun e => !e.unsubscribed

/-- The sheet name a campaign uses: the list field when truthy,
otherwise the default tab. -/
def sheetNameFor (l : Option EmailList) : String :=
  match l with
  | some el =>
    match el.sheetName with
    | some sn => if sn.isEmpty then "email_list_test" else sn
    | none => "email_list_test"
  | none => "email_list_test"

/-- Index of the recipient after the last reported success, the value
`currentIndex` holds when the loop finishes (absent when nothing
succeeded, as in the source where the field is only assigned on
success). -/
def lastSuccessIndex (outcome : Nat → SendOutcome) : Nat → Option Nat
  | 0 => none
  | n + 1 =>
    match lastSuccessIndex outcome n with
    | some j => some j
    | none => if (outcome n).isOk then some (n + 1) else none

/-- The emails pushed onto `sentEmails` during the loop: the recipients
whose transport call reported success, in order. -/
def sentEmailsOf (emails : List String) (outcome : Nat → SendOutcome) : List String :=
  ((emails.enum).filter fun p => (outcome p.1).isOk).map Prod.snd

/-- The send endpoint: precondition checks in source order, then the
accepted response, the initial persisted state and the loop. -/
def sendEndpoint (templates : List Template) (lists : List EmailList) (req : SendReq)
    (connected : Bool) (cid : String)
    (outcome : Nat → SendOutcome) : ApiResp × Effects :=
  match findTemplate templates req.templateId with
  | none => (.errorResp 400 "Template not found", noEffects)
  | some template =>
    let sel : ApiResp ⊕ (List String × Nat) :=
      if jsTruthyOpt req.testEmail then .inr ([req.testEmail.getD ""], 0)
      else if jsTruthyOpt req.listId then
        match findList lists req.listId with
        | none => .inl (.errorResp 400 "Email list not found")
        | some l =>
          .inr ((startRecipients l).map (·.email), l.emails.length - (startRecipients l).length)
      else .inl (.errorResp 400 "No recipients specified")
    match sel with
    | .inl resp => (resp, noEffects)
    | .inr (emails, skipped) =>
      if !connected then (.errorResp 500 "SMTP connection failed", noEffects)
      else
        let sheetName := sheetNameFor (findList lists req.listId)
        let events := sendLoop cid template outcome emails 0
        let finalState : CampaignState :=
          { campaignId := cid
            templateId := req.templateId.getD ""
            listId := req.listId
            sheetName := some sheetName
            optOutLang := template.optOutLang
            totalRecipients := emails.length
            sentEmails := sentEmailsOf emails outcome
            currentIndex := lastSuccessIndex outcome emails.length
            status := "complete" }
        (.sendAccepted cid emails.length skipped,
         ⟨emails, events.map Prod.snd, some finalState⟩)

/-- The resume endpoint: guards in source order (no or complete state,
quiet hours, template lookup, sheet read, empty pending set, transport
verification), then the loop over the pending rows. -/
def resumeEndpoint (stateOpt : Option CampaignState) (clock : Clock)
    (templates : List Template) (sheetRead : Except String (List SheetRow))
    (connected : Bool) (outcome : Nat → SendOutcome) : ApiResp × Effects :=
  match stateOpt with
  | none => (.resumeFail "No campaign to resume", noEffects)
  | some st =>
    if st.status = "complete" then (.resumeFail "No campaign to resume", noEffects)
    else if isQuietHours clock.hour then
      (.resumeFail ("Cannot resume during quiet hours (21:00-08:00). Will be available in " ++
        formatTimeRemaining (getMsUntilQuietHoursEnd clock)), noEffects)
    else
      match templates.find? fun t => t.id == st.templateId with
      | none => (.errorResp 400 "Template not found", noEffects)
      | some template =>
        match sheetRead with
        | .error _ => (.errorResp 500 "Failed to read from Google Sheets", noEffects)
        | .ok rows =>
          let pending := getUnsentFromSheet rows
          if pending.isEmpty then
            (.resumeOk "All emails already sent", ⟨[], [], some { st with status := "complete" }⟩)
          else if !connected then (.errorResp 500 "SMTP connection failed", noEffects)
          else
            let emails := pending.map (·.email)
            let events := sendLoop st.campaignId template outcome emails 0
            (.resumeOk ("Resuming campaign with " ++ Nat.repr pending.length ++ " remaining emails"),
             ⟨emails, events.map Prod.snd, some { st with status := "complete" }⟩)

/-- Concrete inputs for the C8 witness. -/
def c8State : CampaignState :=
  ⟨"cid1", "tpl1", none, some "sheet", "en", 3, ["a@x.com"], some 1, "running"⟩

/-- A wall clock reading 22:30:00.000. -/
def c8Clock : Clock := ⟨22, 30, 0, 0⟩

/-- Spec-side projection of the resume endpoint: its response and
transport targets as a function of the state's status and template id
only — the other state fields, in particular `currentIndex` and
`sentEmails`, do not appear. -/
def resumeView (status templateId : String) (clock : Clock) (templates : List Template)
    (sheetRead : Except String (List SheetRow)) (connected : Bool) : ApiResp × List String :=
  if status = "complete" then (.resumeFail "No campaign to resume", [])
  else if isQuietHours clock.hour then
    (.resumeFail ("Cannot resume during quiet hours (21:00-08:00). Will be available in " ++
      formatTimeRemaining (getMsUntilQuietHoursEnd clock)), [])
  else
    match templates.find? fun t => t.id == templateId with
    | none => (.errorResp 400 "Template not found", [])
    | some _ =>
      match sheetRead with
      | .error _ => (.errorResp 500 "Failed to read from Google Sheets", [])
      | .ok rows =>
        let pending := getUnsentFromSheet rows
        if pending.isEmpty then (.resumeOk "All emails already sent", [])
        else if !connected then (.errorResp 500 "SMTP connection failed", [])
        else
          (.resumeOk ("Resuming campaign with " ++ Nat.repr pending.length ++ " remaining emails"),
           pending.map (·.email))

/-- Concrete template for the C2 witness. -/
def c2Template : Template := ⟨"tpl1", "T", "Subj", "html", "<p>Hi</p>", ""⟩

/-- Stale persisted state of the spec scenario: running, currentIndex 1
of 3, the first recipient already recorded. -/
def c2State : CampaignState :=
  ⟨"cid1", "tpl1", none, some "list_a", "", 3, ["r1@x.com"], some 1, "running"⟩

/-- Store contents of the spec scenario: recipient 1 already SENT. -/
def c2Rows : List SheetRow :=
  [⟨2, "r1@x.com", "SENT", "2024-01-01", ""⟩, ⟨3, "r2@x.com", "", "", ""⟩,
   ⟨4, "r3@x.com", "", "", ""⟩]

/-- Concrete list for the C1 witness: one live and one unsubscribed
entry. -/
def c1List : EmailList :=
  ⟨"list1", "Demo", some "tab1", [⟨"live@x.com", false⟩, ⟨"gone@x.com", true⟩]⟩

/-- A default log record for indexed access. -/
def dummyLog : LogEntry := ⟨"", "", "", "", "", none, none⟩

/-- Outcomes of the C3 scenario: the transport fails on the second
call only. -/
def c3Outcome : Nat → SendOutcome :=
  fun i => if i = 1 then .err "boom" else .ok ("mid" ++ Nat.repr i)

/-- Template of the C3 scenario. -/
def c3Template : Template := ⟨"tpl1", "T", "Subj", "html", "<p>Hi</p>", ""⟩

/-- C10 counterexample template: a text template whose img tag spans a
newline. -/
def c10Tmpl : Template := ⟨"t1", "N", "S", "text", "<img\nsrc=\"u\">", ""⟩

/-- Plain-html template for the C10 witness. -/
def c10Html : Template := ⟨"t2", "N", "S", "html", "<p>A\nB</p>", ""⟩

/-- Markup-free text template for the C10 witness. -/
def c10Text : Template := ⟨"t3", "N", "S", "text", "Hello\nWorld", ""⟩

/-- A string holding one apostrophe. -/
def aposStr : String := String.mk [apos]

/-- C4 counterexample input: an anchor with an additional href-bearing
attribute and an apostrophe in its link text (the apostrophe survives
the URI encoding into the tracking URL). -/
def c4Html : String := "<a data-href=\"v\" href=\"u\">it" ++ aposStr ++ "s</a>"

/-- A rewritten output whose every anchor carries the marker. -/
def c4Wrapped : String :=
  wrapLinksWithTracking "<p>Hi <a href=\"https://ex.com/p\">Click</a></p>" "bob@x.com" "L1"

/-- C7 demo template with an English opt-out footer. -/
def c7Tmpl : Template := ⟨"t1", "N", "S", "html", "<p>Hi</p>", "en"⟩

/-! ## Theorems -/

/-- C5: `isQuietHours` is true exactly on the start-inclusive,
end-exclusive overnight window from 21:00 through 08:00 wrapping
midnight; in particular it is true at 22:00 and at 07:59 (hour 7) and
false at 08:00 exactly and at 20:59 (hour 20). -/
theorem C5_quiet_hours_window :
    (∀ hour : Nat, isQuietHours hour = true ↔ (21 ≤ hour ∨ hour < 8)) ∧
    isQuietHours 22 = true ∧ isQuietHours 8 = false ∧
    isQuietHours 20 = false ∧ isQuietHours 7 = true := by
  refine ⟨fun hour => ?_, rfl, rfl, rfl, rfl⟩
  simp [isQuietHours, ge_iff_le]

/-- C5 witness: the boundary evaluations, read off the theorem. -/
theorem C5_quiet_hours_window_witness :
    isQuietHours 22 = true ∧ isQuietHours 8 = false :=
  ⟨C5_quiet_hours_window.2.1, C5_quiet_hours_window.2.2.1⟩

/-- C8: invoked during quiet hours while a non-complete campaign state
exists, the resume endpoint refuses with the remaining-wait message and
has no effects at all: no transport call, no log entry, and no state
write (so this request does not advance the status to running). -/
theorem C8_resume_quiet_hours_refusal
    (st : CampaignState) (clock : Clock) (templates : List Template)
    (sheetRead : Except String (List SheetRow)) (connected : Bool)
    (outcome : Nat → SendOutcome)
    (hst : st.status ≠ "complete") (hq : isQuietHours clock.hour = true) :
    resumeEndpoint (some st) clock templates sheetRead connected outcome =
      (.resumeFail ("Cannot resume during quiet hours (21:00-08:00). Will be available in " ++
        formatTimeRemaining (getMsUntilQuietHoursEnd clock)), noEffects) := by
  simp [resumeEndpoint, hst, hq]

/-- C8 witness: the refusal at 22:30 with a running state. -/
theorem C8_resume_quiet_hours_refusal_witness :
    resumeEndpoint (some c8State) c8Clock [] (.ok []) true (fun _ => .ok "m") =
      (.resumeFail ("Cannot resume during quiet hours (21:00-08:00). Will be available in " ++
        formatTimeRemaining (getMsUntilQuietHoursEnd c8Clock)), noEffects) :=
  C8_resume_quiet_hours_refusal c8State c8Clock [] (.ok []) true (fun _ => .ok "m")
    (by decide) (by decide)

/-- C9: every campaign-start precondition failure (unresolved template,
no recipients specified, referenced list missing, transport
unverified) is rejected with an error response and produces no
transport call, no appended log entry and no campaign-state write. -/
theorem C9_send_preconditions
    (templates : List Template) (lists : List EmailList) (req : SendReq)
    (connected : Bool) (cid : String) (outcome : Nat → SendOutcome)
    (h : findTemplate templates req.templateId = none
       ∨ (jsTruthyOpt req.testEmail = false ∧ jsTruthyOpt req.listId = false)
       ∨ (jsTruthyOpt req.testEmail = false ∧ jsTruthyOpt req.listId = true ∧
            findList lists req.listId = none)
       ∨ connected = false) :
    ∃ code msg, sendEndpoint templates lists req connected cid outcome =
      (.errorResp code msg, noEffects) := by
  rcases hT : findTemplate templates req.templateId with _ | template
  · exact ⟨400, "Template not found", by simp [sendEndpoint, hT]⟩
  · rcases h with h1 | ⟨hte, hlid⟩ | ⟨hte, hlid, hln⟩ | hc
    · rw [hT] at h1; cases h1
    · exact ⟨400, "No recipients specified", by simp [sendEndpoint, hT, hte, hlid]⟩
    · exact ⟨400, "Email list not found", by simp [sendEndpoint, hT, hte, hlid, hln]⟩
    · cases hte : jsTruthyOpt req.testEmail
      · cases hlid : jsTruthyOpt req.listId
        · exact ⟨400, "No recipients specified", by simp [sendEndpoint, hT, hte, hlid]⟩
        · rcases hL : findList lists req.listId with _ | l
          · exact ⟨400, "Email list not found", by simp [sendEndpoint, hT, hte, hlid, hL]⟩
          · exact ⟨500, "SMTP connection failed", by simp [sendEndpoint, hT, hte, hlid, hL, hc]⟩
      · exact ⟨500, "SMTP connection failed", by simp [sendEndpoint, hT, hte, hc]⟩

/-- C9 witness: a request whose template id does not resolve is
rejected with no effects. -/
theorem C9_send_preconditions_witness :
    ∃ code msg,
      sendEndpoint [] [] ⟨some "t", none, none⟩ true "cid" (fun _ => .ok "m") =
        (.errorResp code msg, noEffects) :=
  C9_send_preconditions [] [] ⟨some "t", none, none⟩ true "cid" (fun _ => .ok "m")
    (Or.inl rfl)

/-- The resume endpoint's response and transport targets factor through
`resumeView`, hence depend on the persisted state only via its status
and template id. -/
theorem resumeEndpoint_view (st : CampaignState) (clock : Clock)
    (templates : List Template) (sheetRead : Except String (List SheetRow))
    (connected : Bool) (outcome : Nat → SendOutcome) :
    ((resumeEndpoint (some st) clock templates sheetRead connected outcome).1,
     (resumeEndpoint (some st) clock templates sheetRead connected outcome).2.transportTargets) =
      resumeView st.status st.templateId clock templates sheetRead connected := by
  by_cases h1 : st.status = "complete"
  · simp [resumeEndpoint, resumeView, noEffects, h1]
  · cases h2 : isQuietHours clock.hour
    · rcases h3 : templates.find? fun t => t.id == st.templateId with _ | tpl
      · simp [resumeEndpoint, resumeView, noEffects, h1, h2, h3]
      · rcases sheetRead with e | rows
        · simp [resumeEndpoint, resumeView, noEffects, h1, h2, h3]
        · cases h4 : (getUnsentFromSheet rows).isEmpty
          · cases connected <;> simp [resumeEndpoint, resumeView, noEffects, h1, h2, h3, h4]
          · simp [resumeEndpoint, resumeView, noEffects, h1, h2, h3, h4]
    · simp [resumeEndpoint, resumeView, noEffects, h1, h2]

/-- C2: the resume entry point rebuilds its recipient sequence solely
from the store's pending rows.  First conjunct: response and transport
targets are unchanged under arbitrary changes of the persisted
`currentIndex` and `sentEmails`.  Second conjunct: with the transport
verified, the transport targets are exactly the pending rows' emails in
store order.  Third conjunct: an empty pending set immediately
completes the campaign with no transport call and no log entry. -/
theorem C2_resume_rebuilds_from_pending :
    (∀ (st : CampaignState) (i1 i2 : Option Nat) (s1 s2 : List String) clock templates
        sheetRead connected outcome,
      (resumeEndpoint (some { st with currentIndex := i1, sentEmails := s1 })
          clock templates sheetRead connected outcome).1 =
        (resumeEndpoint (some { st with currentIndex := i2, sentEmails := s2 })
          clock templates sheetRead connected outcome).1 ∧
      (resumeEndpoint (some { st with currentIndex := i1, sentEmails := s1 })
          clock templates sheetRead connected outcome).2.transportTargets =
        (resumeEndpoint (some { st with currentIndex := i2, sentEmails := s2 })
          clock templates sheetRead connected outcome).2.transportTargets) ∧
    (∀ (st : CampaignState) clock templates template rows outcome,
      st.status ≠ "complete" → isQuietHours clock.hour = false →
      (templates.find? fun t => t.id == st.templateId) = some template →
      (resumeEndpoint (some st) clock templates (.ok rows) true outcome).2.transportTargets =
        (getUnsentFromSheet rows).map (·.email)) ∧
    (∀ (st : CampaignState) clock templates template rows connected outcome,
      st.status ≠ "complete" → isQuietHours clock.hour = false →
      (templates.find? fun t => t.id == st.templateId) = some template →
      getUnsentFromSheet rows = [] →
      resumeEndpoint (some st) clock templates (.ok rows) connected outcome =
        (.resumeOk "All emails already sent",
         ⟨[], [], some { st with status := "complete" }⟩)) := by
  refine ⟨fun st i1 i2 s1 s2 clock templates sheetRead connected outcome => ?_,
          fun st clock templates template rows outcome h1 h2 h3 => ?_,
          fun st clock templates template rows connected outcome h1 h2 h3 h4 => ?_⟩
  · have e1 := resumeEndpoint_view { st with currentIndex := i1, sentEmails := s1 }
      clock templates sheetRead connected outcome
    have e2 := resumeEndpoint_view { st with currentIndex := i2, sentEmails := s2 }
      clock templates sheetRead connected outcome
    exact ⟨(congrArg Prod.fst e1).trans (congrArg Prod.fst e2).symm,
           (congrArg Prod.snd e1).trans (congrArg Prod.snd e2).symm⟩
  · have e := resumeEndpoint_view st clock templates (.ok rows) true outcome
    have := congrArg Prod.snd e
    simp only at this
    rw [this]
    by_cases h4 : (getUnsentFromSheet rows).isEmpty
    · rw [List.isEmpty_iff] at h4
      simp [resumeView, h1, h2, h3, h4]
    · simp only [Bool.not_eq_true] at h4
      simp [resumeView, h1, h2, h3, h4]
  · simp [resumeEndpoint, h1, h2, h3, h4]

/-- C2 witness: resume of the spec scenario targets recipients 2 and 3
only, regardless of the stale currentIndex. -/
theorem C2_resume_rebuilds_from_pending_witness :
    (resumeEndpoint (some c2State) ⟨12, 0, 0, 0⟩ [c2Template] (.ok c2Rows) true
        (fun _ => .ok "m")).2.transportTargets = ["r2@x.com", "r3@x.com"] := by
  have h := C2_resume_rebuilds_from_pending.2.1 c2State ⟨12, 0, 0, 0⟩ [c2Template] c2Template
    c2Rows (fun _ => .ok "m") (by decide) (by decide) rfl
  rw [h]; decide

/-- C1: no recipient marked unsubscribed ever reaches the transport
call.  Start path: every transport target of a list campaign comes from
a list entry whose unsubscribed field is falsy.  Resume path: every
transport target comes from a store row whose unsubscribed column is
empty. -/
theorem C1_unsubscribed_never_sent :
    (∀ (templates : List Template) (lists : List EmailList) (req : SendReq)
        (connected : Bool) (cid : String) (outcome : Nat → SendOutcome)
        (l : EmailList) (e : String),
      jsTruthyOpt req.testEmail = false →
      findList lists req.listId = some l →
      e ∈ (sendEndpoint templates lists req connected cid outcome).2.transportTargets →
      ∃ r, r ∈ l.emails ∧ r.email = e ∧ r.unsubscribed = false) ∧
    (∀ (st : CampaignState) (clock : Clock) (templates : List Template)
        (rows : List SheetRow) (connected : Bool) (outcome : Nat → SendOutcome) (e : String),
      e ∈ (resumeEndpoint (some st) clock templates (.ok rows) connected
            outcome).2.transportTargets →
      ∃ row, row ∈ rows ∧ row.email = e ∧ row.unsubscribed = "") := by
  constructor
  · intro templates lists req connected cid outcome l e hte hfl hmem
    rcases hT : findTemplate templates req.templateId with _ | template
    · simp [sendEndpoint, hT, noEffects] at hmem
    · cases hlid : jsTruthyOpt req.listId
      · simp [sendEndpoint, hT, hte, hlid, noEffects] at hmem
      · cases hconn : connected
        · simp [sendEndpoint, hT, hte, hlid, hfl, hconn, noEffects] at hmem
        · simp [sendEndpoint, hT, hte, hlid, hfl, hconn, startRecipients] at hmem
          rcases hmem with ⟨r, ⟨hrmem, hrsub⟩, hre⟩
          exact ⟨r, hrmem, hre, hrsub⟩
  · intro st clock templates rows connected outcome e hmem
    by_cases h1 : st.status = "complete"
    · simp [resumeEndpoint, h1, noEffects] at hmem
    · cases h2 : isQuietHours clock.hour
      · rcases h3 : templates.find? fun t => t.id == st.templateId with _ | tpl
        · simp [resumeEndpoint, h1, h2, h3, noEffects] at hmem
        · cases h4 : (getUnsentFromSheet rows).isEmpty
          · cases hconn : connected
            · simp [resumeEndpoint, h1, h2, h3, h4, hconn, noEffects] at hmem
            · simp [resumeEndpoint, h1, h2, h3, h4, hconn] at hmem
              simp only [getUnsentFromSheet, List.mem_map, List.mem_filter] at hmem
              rcases hmem with ⟨row, ⟨hrmem, hrp⟩, hre⟩
              refine ⟨row, hrmem, hre, ?_⟩
              simp only [sheetRowPending, Bool.and_eq_true, String.isEmpty_iff] at hrp
              exact hrp.2
          · simp [resumeEndpoint, h1, h2, h3, h4, noEffects] at hmem
      · simp [resumeEndpoint, h1, h2, noEffects] at hmem

/-- C1 witness: the single transport target of a start campaign over
`c1List` traces back to a non-unsubscribed entry. -/
theorem C1_unsubscribed_never_sent_witness :
    ∃ r, r ∈ c1List.emails ∧ r.email = "live@x.com" ∧ r.unsubscribed = false :=
  C1_unsubscribed_never_sent.1 [⟨"tpl1", "T", "S", "html", "x", ""⟩] [c1List]
    ⟨some "tpl1", some "list1", none⟩ true "cid" (fun _ => .ok "m") c1List "live@x.com"
    rfl rfl (by decide)

/-- Campaign id recorded on every loop log entry. -/
theorem logFor_campaignId (cid : String) (t : Template) (e : String) (oc : SendOutcome) :
    (logFor cid t e oc).campaignId = cid := by
  cases oc <;> rfl

/-- Recipient email recorded on every loop log entry. -/
theorem logFor_email (cid : String) (t : Template) (e : String) (oc : SendOutcome) :
    (logFor cid t e oc).email = e := by
  cases oc <;> rfl

/-- Status recorded on every loop log entry. -/
theorem logFor_status (cid : String) (t : Template) (e : String) (oc : SendOutcome) :
    (logFor cid t e oc).status = statusOf oc := by
  cases oc <;> rfl

/-- Error text recorded on every loop log entry. -/
theorem logFor_error (cid : String) (t : Template) (e : String) (oc : SendOutcome) :
    (logFor cid t e oc).error = errorOf oc := by
  cases oc <;> rfl

/-- The loop hands every recipient to the transport, in order. -/
theorem sendLoop_map_fst (cid : String) (t : Template) (outcome : Nat → SendOutcome) :
    ∀ (emails : List String) (i : Nat),
      (sendLoop cid t outcome emails i).map Prod.fst = emails := by
  intro emails
  induction emails with
  | nil => intro i; rfl
  | cons e es ih => intro i; simp [sendLoop, ih]

/-- Indexed view of the produced log batch. -/
theorem sendLoop_getD (cid : String) (t : Template) (outcome : Nat → SendOutcome) :
    ∀ (emails : List String) (i j : Nat), j < emails.length →
      ((sendLoop cid t outcome emails i).map Prod.snd).getD j dummyLog =
        logFor cid t (emails.getD j "") (outcome (i + j)) := by
  intro emails
  induction emails with
  | nil => intro i j hj; cases hj
  | cons e es ih =>
    intro i j hj
    cases j with
    | zero => simp [sendLoop]
    | succ j' =>
      have step := ih (i + 1) j' (by simpa using hj)
      have harith : i + 1 + j' = i + (j' + 1) := by omega
      rw [harith] at step
      simpa [sendLoop] using step

/-- Count of sent entries in the batch equals the count of successful
outcomes over the processed index range. -/
theorem sendLoop_sent_count (cid : String) (t : Template) (outcome : Nat → SendOutcome) :
    ∀ (emails : List String) (i : Nat),
      ((sendLoop cid t outcome emails i).map Prod.snd).countP
          (fun l => l.campaignId == cid && l.status == "sent") =
        (List.range' i emails.length).countP fun j => (outcome j).isOk := by
  intro emails
  induction emails with
  | nil => intro i; rfl
  | cons e es ih =>
    intro i
    have hhead : ((logFor cid t e (outcome i)).campaignId == cid &&
        (logFor cid t e (outcome i)).status == "sent") = (outcome i).isOk := by
      cases h : outcome i <;> simp [logFor, SendOutcome.isOk]
    simp [sendLoop, List.range'_succ, List.countP_cons, ih (i + 1), hhead]

/-- Count of failed entries in the batch equals the count of
unsuccessful outcomes over the processed index range. -/
theorem sendLoop_failed_count (cid : String) (t : Template) (outcome : Nat → SendOutcome) :
    ∀ (emails : List String) (i : Nat),
      ((sendLoop cid t outcome emails i).map Prod.snd).countP
          (fun l => l.campaignId == cid && l.status == "failed") =
        (List.range' i emails.length).countP fun j => !(outcome j).isOk := by
  intro emails
  induction emails with
  | nil => intro i; rfl
  | cons e es ih =>
    intro i
    have hhead : ((logFor cid t e (outcome i)).campaignId == cid &&
        (logFor cid t e (outcome i)).status == "failed") = !(outcome i).isOk := by
      cases h : outcome i <;> simp [logFor, SendOutcome.isOk]
    simp [sendLoop, List.range'_succ, List.countP_cons, ih (i + 1), hhead]

/-- C3: exactly one log entry per recipient, in sequence order: the
batch has one entry per recipient; entry j carries recipient j's email,
the status determined by transport outcome j (sent on success, failed
on a reported error or a throw) and the error text; every recipient is
handed to the transport regardless of earlier failures; and when the
pre-existing log holds no entry of this campaign, the completion
summary counts are exactly the per-campaign sent/failed log counts,
i.e. the number of successful resp. unsuccessful outcomes. -/
theorem C3_one_log_per_recipient
    (cid : String) (t : Template) (outcome : Nat → SendOutcome)
    (emails : List String) (initialLogs : List LogEntry)
    (hfresh : ∀ l ∈ initialLogs, l.campaignId ≠ cid) :
    ((sendLoop cid t outcome emails 0).map Prod.fst = emails) ∧
    ((sendLoop cid t outcome emails 0).map Prod.snd).length = emails.length ∧
    (∀ j, j < emails.length →
      (((sendLoop cid t outcome emails 0).map Prod.snd).getD j dummyLog).email =
          emails.getD j "" ∧
      (((sendLoop cid t outcome emails 0).map Prod.snd).getD j dummyLog).status =
          statusOf (outcome j) ∧
      (((sendLoop cid t outcome emails 0).map Prod.snd).getD j dummyLog).error =
          errorOf (outcome j)) ∧
    completeSummary cid (initialLogs ++ (sendLoop cid t outcome emails 0).map Prod.snd)
        emails.length =
      ⟨emails.length,
       ((List.range emails.length).filter fun j => (outcome j).isOk).length,
       ((List.range emails.length).filter fun j => !(outcome j).isOk).length⟩ := by
  refine ⟨sendLoop_map_fst cid t outcome emails 0, ?_, ?_, ?_⟩
  · have := congrArg List.length (sendLoop_map_fst cid t outcome emails 0)
    simpa using this
  · intro j hj
    have h := sendLoop_getD cid t outcome emails 0 j hj
    rw [Nat.zero_add] at h
    rw [h]
    exact ⟨logFor_email cid t _ _, logFor_status cid t _ _, logFor_error cid t _ _⟩
  · have hsentnil : initialLogs.filter (fun l => l.campaignId == cid && l.status == "sent") = [] := by
      refine List.filter_eq_nil_iff.mpr fun l hl => ?_
      simp [hfresh l hl]
    have hfailnil : initialLogs.filter (fun l => l.campaignId == cid && l.status == "failed") = [] := by
      refine List.filter_eq_nil_iff.mpr fun l hl => ?_
      simp [hfresh l hl]
    have hs := sendLoop_sent_count cid t outcome emails 0
    have hf := sendLoop_failed_count cid t outcome emails 0
    simp only [completeSummary, List.filter_append, hsentnil, hfailnil, List.nil_append]
    refine congrArg₂ (CampaignSummary.mk emails.length · ·) ?_ ?_
    · rw [← List.countP_eq_length_filter, ← List.countP_eq_length_filter, hs,
        List.range_eq_range']
    · rw [← List.countP_eq_length_filter, ← List.countP_eq_length_filter, hf,
        List.range_eq_range']

/-- C3 witness: on a 3-recipient list where the transport fails only on
the second call, the log statuses are sent, failed, sent in order and
the summary reports 3 total, 2 sent, 1 failed. -/
theorem C3_one_log_per_recipient_witness :
    (((sendLoop "cid" c3Template c3Outcome ["a@x", "b@x", "c@x"] 0).map Prod.snd).map
        (·.status) = ["sent", "failed", "sent"]) ∧
    completeSummary "cid"
        ([] ++ (sendLoop "cid" c3Template c3Outcome ["a@x", "b@x", "c@x"] 0).map Prod.snd)
        (["a@x", "b@x", "c@x"] : List String).length =
      ⟨3, 2, 1⟩ := by
  have h := C3_one_log_per_recipient "cid" c3Template c3Outcome ["a@x", "b@x", "c@x"] []
    (by intro l hl; cases hl)
  refine ⟨by decide, ?_⟩
  have hsum := h.2.2.2
  rw [hsum]
  decide

/-- If the preserved-tag extraction found no tag, the processed text is
the input unchanged. -/
theorem extractTagsF_nil_tags :
    ∀ (fuel k : Nat) (s : List Char), (extractTagsF fuel k s).2 = [] →
      (extractTagsF fuel k s).1 = s := by
  intro fuel
  induction fuel with
  | zero =>
    intro k s _
    cases s <;> rfl
  | succ fuel ih =>
    intro k s h
    cases s with
    | nil => rfl
    | cons c rest =>
      cases hg : tryPreserveTag (c :: rest) with
      | some g => simp [extractTagsF, hg] at h
      | none =>
        simp only [extractTagsF, hg] at h ⊢
        exact congrArg (c :: ·) (ih k rest h)

/-- C10 counterexample: on `c10Tmpl` the campaign-start body renderer
preserves the img tag with its newline intact, while the resume body
renderer converts that newline to a break tag, so the two bodies
differ. -/
theorem C10_counterexample : renderBodySend c10Tmpl ≠ renderBodyResume c10Tmpl := by decide

/-- C10 amended: the two entry points do not share one body renderer -
the resume path performs a bare newline conversion without the
allow-list tag preservation.  The bodies agree for every template whose
content type is not text, and for every text template in which the
extraction finds no allow-listed tag; they can differ otherwise
(see the counterexample). -/
theorem C10_renderers_agree (t : Template) :
    (t.contentType ≠ "text" → renderBodySend t = renderBodyResume t) ∧
    (t.contentType = "text" → (extractTags 0 t.content.toList).2 = [] →
      renderBodySend t = renderBodyResume t) := by
  constructor
  · intro h; simp [renderBodySend, renderBodyResume, h]
  · intro h htags
    simp only [renderBodySend, renderBodyResume, h, if_pos]
    simp only [renderTextSend, extractTags]
    simp only [extractTags] at htags
    rw [htags, extractTagsF_nil_tags _ _ _ htags]
    rfl

/-- C10 witness: agreement on a html template and on a markup-free text
template, through the theorem. -/
theorem C10_renderers_agree_witness :
    renderBodySend c10Html = renderBodyResume c10Html ∧
    renderBodySend c10Text = renderBodyResume c10Text :=
  ⟨(C10_renderers_agree c10Html).1 (by decide),
   (C10_renderers_agree c10Text).2 rfl (by decide)⟩

/-- C6 counterexample: the send-path text renderer leaves a literal
opening bracket unescaped - no entity in the output, the raw text kept
verbatim - refuting the claimed escaping. -/
theorem C6_counterexample :
    containsSub (("&lt;").toList) (renderTextSend (("1 < 2").toList)) = false ∧
    renderTextSend (("1 < 2").toList) =
      ("<div style=\"font-family: sans-serif;\">1 < 2</div>").toList := by
  exact ⟨by decide, by decide⟩

/-- C6 amended: the send-path text renderer extracts the allow-listed
tags before newline conversion and splices them back, and converts
every newline to a break tag, but it does NOT escape the remaining
text; the escaping step exists only in the preview renderer.  First
conjunct: whenever the extraction finds no tag, the output is exactly
the raw content with newlines converted, unescaped.  The concrete
conjuncts contrast the send and preview renderers on one input with a
preserved tag and stray brackets. -/
theorem C6_send_rendering_unescaped :
    (∀ content : List Char, (extractTags 0 content).2 = [] →
      renderTextSend content = divOpen ++ newlineToBr content ++ divClose) ∧
    renderTextSend (("a < b\n<img\nsrc=\"u\"> 2 > 1").toList) =
      ("<div style=\"font-family: sans-serif;\">a < b<br><img\nsrc=\"u\"> 2 > 1</div>").toList ∧
    renderTextPreview (("a < b\n<img\nsrc=\"u\"> 2 > 1").toList) =
      ("<div style=\"font-family: sans-serif;\">a &lt; b<br><img\nsrc=\"u\"> 2 &gt; 1</div>").toList := by
  refine ⟨fun content htags => ?_, by decide, by decide⟩
  simp only [renderTextSend, extractTags]
  simp only [extractTags] at htags
  rw [htags, extractTagsF_nil_tags _ _ _ htags]
  rfl

/-- C6 witness: the unescaped rendering on a bracket-free content,
through the theorem. -/
theorem C6_send_rendering_unescaped_witness :
    renderTextSend (("x > y\nz").toList) =
      divOpen ++ newlineToBr (("x > y\nz").toList) ++ divClose :=
  C6_send_rendering_unescaped.1 (("x > y\nz").toList) (by decide)

/-- The all-skipped scan does not depend on the fuel once the fuel
covers the input length. -/
theorem allSkippedF_fuel :
    ∀ (f1 : Nat) (s : List Char) (f2 : Nat), s.length ≤ f1 → s.length ≤ f2 →
      allSkippedF f1 s = allSkippedF f2 s := by
  intro f1
  induction f1 with
  | zero =>
    intro s f2 h1 _
    have hs : s = [] := List.length_eq_zero.mp (Nat.le_zero.mp h1)
    subst hs; cases f2 <;> rfl
  | succ f1 ih =>
    intro s f2 h1 h2
    cases s with
    | nil => cases f2 <;> rfl
    | cons c rest =>
      cases f2 with
      | zero => simp at h2
      | succ f2 =>
        simp only [allSkippedF]
        cases hp : parseAnchor (c :: rest) with
        | some m =>
          have hrem := m.rem_lt
          simp only [List.length_cons] at h1 h2 hrem
          exact congrArg (containsSub clickMarker m.urlStr && ·)
            (ih m.remaining f2 (by omega) (by omega))
        | none =>
          simp only [List.length_cons] at h1 h2
          exact ih rest f2 (by omega) (by omega)

/-- C4 amended, mechanism part: the rewrite leaves any input unchanged
in which every matched anchor's captured URL already carries the
tracking-endpoint marker (each match takes the skip branch and is
emitted verbatim).  In particular a rewritten output is a fixed point
whenever all its anchor matches capture marker-bearing URLs; full
idempotence on every HTML string fails (see the counterexample). -/
theorem C4_wrap_skip_identity (email sheet : List Char) :
    ∀ s : List Char, allAnchorsSkipped s = true → wrapGo email sheet s = s := by
  suffices h : ∀ (fuel : Nat) (s : List Char), s.length ≤ fuel →
      allAnchorsSkipped s = true → wrapGoF email sheet fuel s = s by
    intro s hs
    exact h s.length s le_rfl hs
  intro fuel
  induction fuel with
  | zero =>
    intro s h1 _
    have hs : s = [] := List.length_eq_zero.mp (Nat.le_zero.mp h1)
    subst hs; rfl
  | succ fuel ih =>
    intro s h1 hall
    cases s with
    | nil => rfl
    | cons c rest =>
      unfold allAnchorsSkipped at hall
      simp only [List.length_cons, allSkippedF] at hall
      cases hp : parseAnchor (c :: rest) with
      | some m =>
        rw [hp] at hall
        simp only [Bool.and_eq_true] at hall
        have hrem := m.rem_lt
        simp only [List.length_cons] at h1 hrem
        have hallrem : allAnchorsSkipped m.remaining = true := by
          unfold allAnchorsSkipped
          rw [allSkippedF_fuel m.remaining.length m.remaining rest.length le_rfl (by omega)]
          exact hall.2
        have hrepl : anchorRepl email sheet m = m.matched := by
          simp [anchorRepl, hall.1]
        simp only [wrapGoF, hp]
        rw [hrepl, ih m.remaining (by omega) hallrem]
        exact m.split_eq.symm
      | none =>
        rw [hp] at hall
        simp only [List.length_cons] at h1
        simp only [wrapGoF, hp]
        exact congrArg (c :: ·) (ih rest (by omega) hall)

/-- C4 counterexample: the rewrite is not idempotent - applying it a
second time to the output for `c4Html` changes the string again. -/
theorem C4_counterexample :
    wrapLinksWithTracking (wrapLinksWithTracking c4Html "e@x" "L") "e@x" "L" ≠
      wrapLinksWithTracking c4Html "e@x" "L" := by decide

/-- C4 witness: the rewritten demo output is a fixed point of the
rewrite, through the theorem with its hypothesis evaluated. -/
theorem C4_wrap_skip_identity_witness :
    wrapGo (("bob@x.com").toList) (("L1").toList) c4Wrapped.toList = c4Wrapped.toList :=
  C4_wrap_skip_identity (("bob@x.com").toList) (("L1").toList) c4Wrapped.toList (by decide)

/-- C7 amended: the transforms run in the order body, opt-out footer,
link wrapping, tracking pixel; hence the pixel - appended after the
wrapper ran - is a verbatim suffix of the output and is never
rewritten.  The opt-out footer, however, is appended BEFORE the wrapper
runs and its unsubscribe link IS rewritten to a click-tracking URL: on
the demo render no plain unsubscribe href remains and the click
endpoint carries the encoded unsubscribe URL. -/
theorem C7_render_order (t : Template) (email sheet : List Char) :
    (renderMessageSend t email sheet =
      wrapGo email sheet (renderBodySend t ++ footerPart t.optOutLang email sheet) ++
        trackingPixel email sheet) ∧
    (trackingPixel email sheet) <:+ (renderMessageSend t email sheet) ∧
    containsSub (("href=\"https://www.clicklocal.me/email").toList)
      (renderMessageSend c7Tmpl (("bob@x.com").toList) (("L1").toList)) = false ∧
    containsSub (("href=\"https://www.clicklocal.me/api/click?e=bob%40x.com&s=TDE&url=https%3A%2F%2Fwww.clicklocal.me%2Femail%3Fe%3Dbob%2540x.com").toList)
      (renderMessageSend c7Tmpl (("bob@x.com").toList) (("L1").toList)) = true := by
  refine ⟨rfl, ⟨_, rfl⟩, by decide, by decide⟩

/-- C7 counterexample: the original claim's assertion that the opt-out
footer's unsubscribe link is not rewritten is false - on the demo
render the unsubscribe href has been replaced by a click-tracking URL
(the plain href is gone, the click endpoint wraps the encoded
unsubscribe URL, and the visible link text is still there). -/
theorem C7_counterexample :
    containsSub (("href=\"https://www.clicklocal.me/email").toList)
      (renderMessageSend c7Tmpl (("bob@x.com").toList) (("L1").toList)) = false ∧
    containsSub (("<a href=\"https://www.clicklocal.me/api/click?e=bob%40x.com&s=TDE&url=https%3A%2F%2Fwww.clicklocal.me%2Femail%3Fe%3Dbob%2540x.com%26s%3DTDE%26lang%3Den&link=click%20here\" style=\"color:#9ca3af;\">click here</a>").toList)
      (renderMessageSend c7Tmpl (("bob@x.com").toList) (("L1").toList)) = true := by
  exact ⟨by decide, by decide⟩

end ClickLocal
